import Mathlib

/-!
Shallow embedding of the Metall manager kernel
(`src/include/metall/kernel/manager_kernel_impl.ipp`) together with the
parts of its environment that the kernel relies on (the segment memory
allocator, the per-element array construction helper, and a small file
system model).  Definitions follow the C++ source; components of the
repository that are not among the given sources are modelled from the
specification and say so in their doc comments.
-/

namespace Metall

/-- Chunk size in bytes: the facade instantiates the kernel with
`k_chunk_size = 1 << 21` (2 MiB), see `basic_manager.hpp`. -/
def k_chunk_size : Nat := 2097152

/-- Modelled from the spec: the segment memory allocator's distinguished
failure offset (`m_segment_memory_allocator.k_null_offset`); the allocator
itself is not among the given sources.  Any value that can never be a valid
allocation offset serves; the offset type is signed, we use -1. -/
def k_null_offset : Int := -1

/-- Modelled from the spec: name of the datastore subdirectory
(`k_datastore_dir_name`; the constant's definition is not among the given
sources, the spec's layout shows `datastore/`). -/
def k_datastore_dir_name : String := "datastore"

/-- Modelled from the spec: name of the properly-closed marker file
(`k_properly_closed_mark_file_name`; the spec's layout shows
`properly_closed`). -/
def k_properly_closed_mark_file_name : String := "properly_closed"

/-- Modelled from the spec: file name stem of the segment backing files
(`k_segment_prefix`; the spec's layout shows `segment.<k>`). -/
def k_segment_file : String := "segment"

/-- Modelled from the spec: file name of the serialized named object
directory (`k_named_object_directory_prefix`). -/
def k_named_object_directory_file : String := "named_directory"

/-- Modelled from the spec: file name of the serialized allocator state
(`k_segment_memory_allocator_prefix`). -/
def k_segment_memory_allocator_file : String := "allocator_state"

/-- Fuel-bounded helper computing the smallest power of two that is at
least `n`, starting from accumulator `acc` (a power of two). -/
def pow2geAux (n : Nat) : Nat → Nat → Nat
  | acc, 0 => acc
  | acc, fuel + 1 => if n ≤ acc then acc else pow2geAux n (2 * acc) fuel

/-- Smallest power of two `≥ n` (and `≥ 1`). -/
def pow2ge (n : Nat) : Nat := pow2geAux n 1 n

/-- Executable power-of-two test. -/
def isPow2 (n : Nat) : Bool := pow2ge n == n

/-- Round `n` up to a whole number of chunks. -/
def roundUpChunk (n : Nat) : Nat :=
  ((n + k_chunk_size - 1) / k_chunk_size) * k_chunk_size

/-- Modelled from the spec: state of the segment memory allocator
(component E plus the segment storage size bookkeeping it drives).  The
allocator itself (`m_segment_memory_allocator`) is not among the given
sources; the spec describes a chunk/slab allocator that records live
allocations inside `[0, capacity)`, extends the backing segment by whole
chunks on demand, and fails when extension would exceed the capacity. -/
structure SegAlloc where
  capacity : Nat
  segSize : Nat
  allocated : List (Nat × Nat)
deriving DecidableEq

/-- Two byte ranges `[o, o+n)` and `[o2, o2+n2)` are disjoint. -/
def disjointB (o n o2 n2 : Nat) : Bool :=
  decide (o + n ≤ o2) || decide (o2 + n2 ≤ o)

/-- A reservation `[o, o+reserve)` fits: it avoids every live allocation
and the segment can be extended (in whole chunks) to cover it without
exceeding the capacity. -/
def fitsAt (o reserve cap : Nat) (allocated : List (Nat × Nat)) : Bool :=
  allocated.all (fun e => disjointB o reserve e.1 e.2)
    && decide (roundUpChunk (o + reserve) ≤ cap)

/-- First-fit scan over offsets `j * gran`, `(j+1) * gran`, ... bounded by
`fuel` steps. -/
def findFitAux (gran reserve cap : Nat) (allocated : List (Nat × Nat)) :
    Nat → Nat → Option Nat
  | _, 0 => none
  | j, fuel + 1 =>
    if fitsAt (j * gran) reserve cap allocated then some (j * gran)
    else findFitAux gran reserve cap allocated (j + 1) fuel

/-- First-fit search over all multiples of `gran` inside `[0, cap]`. -/
def findFit (gran reserve cap : Nat) (allocated : List (Nat × Nat)) : Option Nat :=
  findFitAux gran reserve cap allocated 0 (cap / gran + 1)

/-- Modelled from the spec: first-fit allocation of `reserve` bytes at an
offset that is a multiple of `gran`, extending the segment as needed; on
failure the state is unchanged and `k_null_offset` is returned. -/
def SegAlloc.allocGran (al : SegAlloc) (gran reserve : Nat) : Int × SegAlloc :=
  match findFit gran reserve al.capacity al.allocated with
  | none => (k_null_offset, al)
  | some o =>
    ((o : Int),
     { al with
       segSize := max al.segSize (roundUpChunk (o + reserve)),
       allocated := (o, reserve) :: al.allocated })

/-- Modelled from the spec: the allocator's common allocation path.  Small
requests are served from a size class whose slot size is the smallest power
of two that is `≥` the request and a multiple of the alignment (slots are
naturally aligned to their size, so offsets are multiples of the slot
size); large requests take whole chunk runs at chunk-aligned offsets. -/
def SegAlloc.allocCore (al : SegAlloc) (nbytes align : Nat) : Int × SegAlloc :=
  let m := max (max nbytes 1) align
  if pow2ge m ≤ k_chunk_size / 4 then al.allocGran (pow2ge m) (pow2ge m)
  else al.allocGran k_chunk_size (roundUpChunk (max nbytes 1))

/-- Modelled from the spec: `E.allocate(nbytes)`. -/
def SegAlloc.allocate (al : SegAlloc) (nbytes : Nat) : Int × SegAlloc :=
  al.allocCore nbytes 1

/-- Modelled from the spec: `E.allocate_aligned(nbytes, align)`; the
alignment must be a power of two and at most the chunk size, otherwise the
call fails with `invalid_argument` (the null offset). -/
def SegAlloc.allocate_aligned (al : SegAlloc) (nbytes align : Nat) : Int × SegAlloc :=
  if isPow2 align && decide (align ≤ k_chunk_size) then al.allocCore nbytes align
  else (k_null_offset, al)

/-- Modelled from the spec: `E.deallocate(offset)` releases the allocation
recorded at `offset`. -/
def SegAlloc.deallocate (al : SegAlloc) (off : Int) : SegAlloc :=
  if off < 0 then al
  else { al with allocated := al.allocated.filter (fun e => !((e.1 : Int) == off)) }

/-- File system model: the set of existing paths (contents are not
modelled; for the marker file only presence matters, which matches the
spec: "presence is the signal"). -/
structure FS where
  files : List String
deriving DecidableEq

/-- `util::file_exist`. -/
def FS.exist (fs : FS) (p : String) : Bool := fs.files.contains p

/-- `util::create_file`. -/
def FS.create (fs : FS) (p : String) : FS :=
  if fs.exist p then fs else ⟨p :: fs.files⟩

/-- `p` lies strictly below directory `dir`. -/
def pathUnder (dir p : String) : Bool := (dir ++ "/").data.isPrefixOf p.data

/-- Removal of a single path. -/
def FS.removeOne (fs : FS) (p : String) : FS :=
  ⟨fs.files.filter (fun q => !(q == p))⟩

/-- Recursive removal of a directory: drops the directory and everything
below it. -/
def FS.removeTree (fs : FS) (dir : String) : FS :=
  ⟨fs.files.filter (fun q => !(q == dir || pathUnder dir q))⟩

/-- State of `m_segment_storage`: the file-backed mapping (component B).
`base` is the absolute address `get_segment()` returns (0 when unmapped,
i.e. the null pointer). -/
structure SegmentStorage where
  present : Bool
  size : Nat
  read_only : Bool
  base : Int
deriving DecidableEq

/-- State of a `manager_kernel` instance: the member fields of the class
that the modelled operations read or write.  Addresses are integers with 0
playing the role of the null pointer. -/
structure ManagerKernel where
  base_dir_path : String
  vm_region : Bool
  vm_region_size : Nat
  segment_header : Bool
  named_object_directory : List (String × Int × Nat)
  segment_storage : SegmentStorage
  segment_memory_allocator : SegAlloc
deriving DecidableEq

/-- `priv_make_datastore_dir_path`: `<base_dir_path>/<k_datastore_dir_name>`. -/
def priv_make_datastore_dir_path (base : String) : String :=
  base ++ "/" ++ k_datastore_dir_name

/-- `priv_make_file_name`: `<datastore dir>/<item_name>`. -/
def priv_make_file_name (base item : String) : String :=
  priv_make_datastore_dir_path base ++ "/" ++ item

/-- `priv_properly_closed`: the marker file exists. -/
def priv_properly_closed (fs : FS) (base : String) : Bool :=
  fs.exist (priv_make_file_name base k_properly_closed_mark_file_name)

/-- `priv_mark_properly_closed`: create the marker file. -/
def priv_mark_properly_closed (fs : FS) (base : String) : FS :=
  fs.create (priv_make_file_name base k_properly_closed_mark_file_name)

/-- `priv_unmark_properly_closed`: remove the marker file. -/
def priv_unmark_properly_closed (fs : FS) (base : String) : FS :=
  fs.removeOne (priv_make_file_name base k_properly_closed_mark_file_name)

/-- `priv_remove_data_store`: recursively remove the datastore directory. -/
def priv_remove_data_store (fs : FS) (base : String) : FS :=
  fs.removeTree (priv_make_datastore_dir_path base)

/-- `consistent(dir_path)`: forwards to `priv_properly_closed`. -/
def consistent (fs : FS) (dir_path : String) : Bool :=
  priv_properly_closed fs dir_path

/-- `priv_initialized`: the boolean the C++ function returns
(`m_vm_region && m_vm_region_size > 0 && m_segment_header &&
m_segment_storage.size() > 0`). -/
def priv_initialized (k : ManagerKernel) : Bool :=
  k.vm_region && decide (0 < k.vm_region_size) && k.segment_header
    && decide (0 < k.segment_storage.size)

/-- `allocate(nbytes)`: read-only stores get a null pointer; otherwise the
offset returned by the segment memory allocator is added to the segment
base unconditionally — the source never compares it with `k_null_offset`
(it only asserts `offset >= 0`), unlike `allocate_aligned`. -/
def ManagerKernel.allocate (k : ManagerKernel) (nbytes : Nat) : Int × ManagerKernel :=
  if k.segment_storage.read_only then (0, k)
  else
    let r := k.segment_memory_allocator.allocate nbytes
    (k.segment_storage.base + r.1, { k with segment_memory_allocator := r.2 })

/-- `allocate_aligned(nbytes, alignment)`: rejects alignments above the
chunk size, and maps the allocator's null offset to a null pointer. -/
def ManagerKernel.allocate_aligned (k : ManagerKernel) (nbytes alignment : Nat) :
    Int × ManagerKernel :=
  if k.segment_storage.read_only then (0, k)
  else if k_chunk_size < alignment then (0, k)
  else
    let r := k.segment_memory_allocator.allocate_aligned nbytes alignment
    if r.1 = k_null_offset then (0, k)
    else (k.segment_storage.base + r.1, { k with segment_memory_allocator := r.2 })

/-- `deallocate(addr)`: returns immediately on a read-only store or a null
address; otherwise converts the address to an offset and forwards it to the
segment memory allocator. -/
def ManagerKernel.deallocate (k : ManagerKernel) (addr : Int) : ManagerKernel :=
  if k.segment_storage.read_only then k
  else if addr = 0 then k
  else
    { k with segment_memory_allocator :=
        k.segment_memory_allocator.deallocate (addr - k.segment_storage.base) }

/-- `m_named_object_directory.find(name)`: the stored `(offset, length)`
pair of the entry, if present. -/
def dirFind (d : List (String × Int × Nat)) (name : String) : Option (Int × Nat) :=
  match d.find? (fun e => e.1 == name) with
  | none => none
  | some e => some e.2

/-- `m_named_object_directory.insert(name, offset, length)`: fails (returns
`none`) when the name is already present. -/
def dirInsert (d : List (String × Int × Nat)) (name : String) (off : Int) (len : Nat) :
    Option (List (String × Int × Nat)) :=
  match dirFind d name with
  | some _ => none
  | none => some ((name, off, len) :: d)

/-- `m_named_object_directory.erase(iterator)`: removes the entry with the
given name. -/
def dirErase (d : List (String × Int × Nat)) (name : String) :
    List (String × Int × Nat) :=
  d.filter (fun e => !(e.1 == name))

/-- Observable side effects of typed construction and destruction: element
constructor and destructor runs, directory erasure, memory release. -/
inductive Event where
  | constructElem (i : Nat)
  | destructElem (i : Nat)
  | eraseEntry (name : String)
  | deallocMem (addr : Int)
deriving DecidableEq

/-- Modelled from the spec: `util::array_construct` (not among the given
sources).  It runs the per-element initializer over slots `0, ..., num-1`;
`failAt = some j` (with `j < num`) means the initializer fails at slot `j`,
in which case the already constructed slots `[0, j)` are destructed in
reverse order by the exception unwinding and the failure propagates. -/
def array_construct (num : Nat) (failAt : Option Nat) : Bool × List Event :=
  match failAt with
  | some j =>
    if j < num then
      (false,
       (List.range j).map Event.constructElem
         ++ (List.range j).reverse.map Event.destructElem)
    else (true, (List.range num).map Event.constructElem)
  | none => (true, (List.range num).map Event.constructElem)

/-- Outcome of a construct call: a returned address, a null return, or a
failure raised by the user initializer that propagates out of the call. -/
inductive ConstructResult where
  | addr (a : Int)
  | nullRet
  | initRaised
deriving DecidableEq

/-- `priv_generic_named_construct<T>(name, num, try2find, dothrow, table)`,
with `szT` standing for `sizeof(T)` and `failAt` describing where (if
anywhere) the user initializer fails.  The source looks the name up; on a
hit it returns the stored address (when `try2find`) or null, touching
nothing.  Otherwise it allocates, inserts the directory entry, and runs
`array_construct`; the source contains no handler around it, so on an
initializer failure the entry stays inserted and the memory stays
allocated while the failure propagates. -/
def priv_generic_named_construct (k : ManagerKernel) (name : String)
    (num szT : Nat) (try2find : Bool) (failAt : Option Nat) :
    ConstructResult × ManagerKernel × List Event :=
  match dirFind k.named_object_directory name with
  | some e =>
    if try2find then (ConstructResult.addr (k.segment_storage.base + e.1), k, [])
    else (ConstructResult.nullRet, k, [])
  | none =>
    let r := k.allocate (num * szT)
    match dirInsert r.2.named_object_directory name
        (r.1 - r.2.segment_storage.base) num with
    | none => (ConstructResult.nullRet, r.2, [])
    | some d =>
      let k2 := { r.2 with named_object_directory := d }
      let c := array_construct num failAt
      if c.1 then (ConstructResult.addr r.1, k2, c.2)
      else (ConstructResult.initRaised, k2, c.2)

/-- `char_ptr_holder_type`: an anonymous, unique (keyed by the type's
`typeid` name), or user-named instance designator. -/
inductive NameHolder where
  | anonymous
  | unique (typeName : String)
  | named (s : String)

/-- The `raw_name` the kernel resolves:
`(name.is_unique()) ? typeid(T).name() : name.get()`; anonymous holders
never reach a raw name. -/
def rawName : NameHolder → Option String
  | NameHolder.anonymous => none
  | NameHolder.unique t => some t
  | NameHolder.named s => some s

/-- `destroy<T>(name)`: fails on read-only stores and anonymous holders;
otherwise looks the raw name up, and on a hit erases the directory entry
first, then destructs the `length` elements, then deallocates through
`deallocate(offset + segment base)`. -/
def ManagerKernel.destroy (k : ManagerKernel) (h : NameHolder) :
    Bool × ManagerKernel × List Event :=
  if k.segment_storage.read_only then (false, k, [])
  else
    match rawName h with
    | none => (false, k, [])
    | some name =>
      match dirFind k.named_object_directory name with
      | none => (false, k, [])
      | some e =>
        let k1 := { k with named_object_directory :=
                      dirErase k.named_object_directory name }
        let k2 := k1.deallocate (k1.segment_storage.base + e.1)
        (true, k2,
         Event.eraseEntry name ::
           ((List.range e.2).map Event.destructElem
             ++ [Event.deallocMem (k1.segment_storage.base + e.1)]))

/-- `priv_serialize_management_data`: refuses on read-only stores;
otherwise writes the named object directory file and the allocator state
file under `datastore/`. -/
def priv_serialize_management_data (k : ManagerKernel) (fs : FS) : Bool × FS :=
  if k.segment_storage.read_only then (false, fs)
  else
    (true,
     (fs.create (priv_make_file_name k.base_dir_path k_named_object_directory_file)).create
       (priv_make_file_name k.base_dir_path k_segment_memory_allocator_file))

/-- `close()`: when the kernel is initialized, serialize the management
data, sync the segment storage, destroy the mapping, deallocate the
segment header and release the VM region; otherwise do nothing.  It never
touches the properly-closed marker. -/
def ManagerKernel.close (k : ManagerKernel) (fs : FS) : ManagerKernel × FS :=
  if priv_initialized k then
    let fs1 := (priv_serialize_management_data k fs).2
    ({ k with
       segment_storage :=
         { k.segment_storage with present := false, size := 0, base := 0 },
       segment_header := false,
       vm_region := false,
       vm_region_size := 0 }, fs1)
  else (k, fs)

/-- `~manager_kernel()`: calls `close()` and then — as the last line —
`priv_mark_properly_closed(m_base_dir_path)`. -/
def ManagerKernel.destruct (k : ManagerKernel) (fs : FS) : ManagerKernel × FS :=
  let r := k.close fs
  (r.1, priv_mark_properly_closed r.2 r.1.base_dir_path)

/-- Environment data `open` obtains from outside the modelled state: the
address the VM reservation yields and the contents deserialized from the
datastore files (file contents are not part of the file system model). -/
structure OpenEnv where
  vm_base : Int
  stored_seg_size : Nat
  stored_directory : List (String × Int × Nat)
  stored_allocator : SegAlloc

/-- Outcome of `open`: `notOpenable` is the source's non-fatal `false`
return; `inconsistentDatastore` models the abort on a missing marker;
`opened` carries the attached kernel and the updated file system. -/
inductive OpenResult where
  | notOpenable
  | inconsistentDatastore
  | opened (k : ManagerKernel) (fs : FS)

/-- Modelled from the spec: `m_segment_storage.openable` (segment storage
is not among the given sources) — the backing segment file exists. -/
def segment_openable (fs : FS) (base : String) : Bool :=
  fs.exist (priv_make_file_name base k_segment_file)

/-- `open(base_dir_path, read_only, vm_reserve_size)`: returns `false` when
the segment file is absent; aborts (`inconsistentDatastore`) when the
properly-closed marker is absent; otherwise reserves the VM region, maps
the header and segment, removes the marker when opening writable, and
deserializes the management data. -/
def openKernel (base : String) (read_only : Bool) (vm_reserve : Nat)
    (fs : FS) (env : OpenEnv) : OpenResult :=
  if !segment_openable fs base then OpenResult.notOpenable
  else if !priv_properly_closed fs base then OpenResult.inconsistentDatastore
  else
    let fs1 := if read_only then fs else priv_unmark_properly_closed fs base
    OpenResult.opened
      { base_dir_path := base,
        vm_region := true,
        vm_region_size := roundUpChunk vm_reserve,
        segment_header := true,
        named_object_directory := env.stored_directory,
        segment_storage :=
          { present := true, size := env.stored_seg_size,
            read_only := read_only,
            base := env.vm_base + roundUpChunk 1 },
        segment_memory_allocator := env.stored_allocator } fs1

/-- A freshly created, writable, initialized kernel: 4 MiB VM region at
address 4194304, one 2 MiB chunk of backing segment, empty directory,
empty allocator. -/
def kFresh : ManagerKernel :=
  { base_dir_path := "t",
    vm_region := true,
    vm_region_size := 4194304,
    segment_header := true,
    named_object_directory := [],
    segment_storage :=
      { present := true, size := 2097152, read_only := false, base := 4194304 },
    segment_memory_allocator :=
      { capacity := 4194304, segSize := 2097152, allocated := [] } }

/-- A kernel whose segment is at capacity: a single chunk, fully
allocated, with no room to extend. -/
def kFull : ManagerKernel :=
  { kFresh with segment_memory_allocator :=
      { capacity := 2097152, segSize := 2097152, allocated := [(0, 2097152)] } }

/-- A kernel holding one named entry `"x"` of length 3 at offset 64,
backed by a live 64-byte allocation. -/
def kWithEntry : ManagerKernel :=
  { kFresh with
    named_object_directory := [("x", (64 : Int), 3)],
    segment_memory_allocator :=
      { capacity := 4194304, segSize := 2097152, allocated := [(64, 64)] } }

/-- The kernel of `kFresh` opened read-only. -/
def kRO : ManagerKernel :=
  { kFresh with segment_storage :=
      { present := true, size := 2097152, read_only := true, base := 4194304 } }

/-- The allocator state of `kFresh` after one 128-byte slab allocation. -/
def kC9res : ManagerKernel :=
  { kFresh with segment_memory_allocator :=
      { capacity := 4194304, segSize := 2097152, allocated := [(0, 128)] } }

/-- An empty file system. -/
def fsEmpty : FS := ⟨[]⟩

/-- A file system holding exactly the properly-closed marker of base
directory `"t"`. -/
def fsMarker : FS := ⟨[priv_make_file_name "t" k_properly_closed_mark_file_name]⟩

/-- A file system holding the backing segment file of base directory
`"t"` but no properly-closed marker. -/
def fsSegOnly : FS := ⟨[priv_make_file_name "t" k_segment_file]⟩

/-- A concrete open environment. -/
def envW : OpenEnv :=
  { vm_base := 4194304, stored_seg_size := 2097152, stored_directory := [],
    stored_allocator := { capacity := 4194304, segSize := 2097152, allocated := [] } }

/-- Creating a file makes it exist. -/
theorem FS.exist_create_self (fs : FS) (p : String) : (fs.create p).exist p = true := by
  unfold FS.create
  split
  · assumption
  · simp [FS.exist]

/-- `close` leaves the base directory path unchanged. -/
theorem close_base_dir (k : ManagerKernel) (fs : FS) :
    (k.close fs).1.base_dir_path = k.base_dir_path := by
  unfold ManagerKernel.close
  split <;> rfl

/-- `allocate` does not touch the named object directory. -/
theorem allocate_dir (k : ManagerKernel) (n : Nat) :
    (k.allocate n).2.named_object_directory = k.named_object_directory := by
  unfold ManagerKernel.allocate
  split <;> rfl

/-- `allocate` does not touch the segment storage. -/
theorem allocate_storage (k : ManagerKernel) (n : Nat) :
    (k.allocate n).2.segment_storage = k.segment_storage := by
  unfold ManagerKernel.allocate
  split <;> rfl

/-- A kernel that is not initialized is untouched by `close`. -/
theorem close_of_not_initialized (k : ManagerKernel) (fs : FS)
    (h : priv_initialized k = false) : k.close fs = (k, fs) := by
  unfold ManagerKernel.close
  simp [h]

/-- C7: `close` is idempotent — the second call finds the kernel no longer
initialized (`m_vm_region` is null, its size zero, the header gone, the
storage destroyed) and performs no serialization, sync, unmap, or any
other state change, so closing twice equals closing once. -/
theorem close_idempotent (k : ManagerKernel) (fs : FS) :
    (k.close fs).1.close (k.close fs).2 = k.close fs
    ∧ priv_initialized (k.close fs).1 = false := by
  by_cases h : priv_initialized k = true
  · have h2 : priv_initialized (k.close fs).1 = false := by
      unfold ManagerKernel.close
      rw [if_pos h]
      rfl
    exact ⟨by rw [close_of_not_initialized _ _ h2], h2⟩
  · have hf : priv_initialized k = false := by
      revert h
      cases priv_initialized k <;> simp
    have h1 := close_of_not_initialized k fs hf
    refine ⟨?_, ?_⟩
    · rw [h1]
      exact h1
    · rw [h1]
      exact hf

/-- C2 counterexample: a concrete initialized kernel on an empty file
system; after `close()` returns, the properly-closed marker does not
exist, contradicting the claim that `close()` writes the marker as its
very last action. -/
theorem close_leaves_no_marker_cex :
    priv_initialized kFresh = true
    ∧ priv_properly_closed (kFresh.close fsEmpty).2 "t" = false := by decide

/-- C2 (amended): `close()` itself never writes the properly-closed
marker; the destructor `~manager_kernel` writes it, after running
`close()` (which serializes the directory and allocator state and syncs
the segment storage), as its very last action — so after the destructor
the marker exists. -/
theorem destructor_writes_marker_last (k : ManagerKernel) (fs : FS) :
    k.destruct fs
      = ((k.close fs).1, priv_mark_properly_closed (k.close fs).2 k.base_dir_path)
    ∧ priv_properly_closed (k.destruct fs).2 k.base_dir_path = true := by
  constructor
  · simp only [ManagerKernel.destruct]
    rw [close_base_dir]
  · simp only [ManagerKernel.destruct]
    rw [close_base_dir]
    unfold priv_properly_closed priv_mark_properly_closed
    exact FS.exist_create_self _ _

/-- C10: `deallocate` on a null address returns immediately with the
kernel unchanged, and on a read-only store both `deallocate` and
`allocate` return immediately (the latter with a null pointer) without
modifying the allocator, the directory, or any other kernel state. -/
theorem deallocate_null_and_read_only_frame (k : ManagerKernel) (a : Int) (n : Nat) :
    k.deallocate 0 = k
    ∧ (k.segment_storage.read_only = true →
        k.deallocate a = k ∧ k.allocate n = (0, k)) := by
  constructor
  · unfold ManagerKernel.deallocate
    split
    · rfl
    · simp
  · intro h
    constructor
    · unfold ManagerKernel.deallocate
      simp [h]
    · unfold ManagerKernel.allocate
      simp [h]

/-- C10 witness: the read-only kernel `kRO` at concrete arguments. -/
theorem deallocate_null_and_read_only_frame_witness :
    kRO.deallocate 0 = kRO ∧ (kRO.deallocate 7 = kRO ∧ kRO.allocate 5 = (0, kRO)) :=
  ⟨(deallocate_null_and_read_only_frame kRO 7 5).1,
   (deallocate_null_and_read_only_frame kRO 7 5).2 rfl⟩

/-- A path of the form `dir ++ "/" ++ item` lies below `dir`. -/
theorem pathUnder_append (dir item : String) :
    pathUnder dir (dir ++ "/" ++ item) = true := by
  unfold pathUnder
  rw [String.data_append]
  rw [List.isPrefixOf_iff_prefix]
  exact List.prefix_append _ _

/-- After recursively removing a directory, no path below it exists. -/
theorem removeTree_not_exist (fs : FS) (dir p : String)
    (h : pathUnder dir p = true) : (fs.removeTree dir).exist p = false := by
  cases hb : (fs.removeTree dir).exist p
  · rfl
  · exfalso
    have hm : p ∈ fs.files.filter (fun q => !(q == dir || pathUnder dir q)) :=
      List.mem_of_elem_eq_true hb
    have hf := (List.mem_filter.mp hm).2
    rw [h] at hf
    simp at hf

/-- C3 counterexample: for base directory `"t"` the properly-closed marker
file lies below `datastore/` — and `priv_remove_data_store` (used by
`remove()` and when recreating) deletes it along with the datastore,
contradicting the claim that the marker sits outside `datastore/`. -/
theorem marker_inside_datastore_cex :
    pathUnder (priv_make_datastore_dir_path "t")
        (priv_make_file_name "t" k_properly_closed_mark_file_name) = true
    ∧ priv_properly_closed fsMarker "t" = true
    ∧ priv_properly_closed (priv_remove_data_store fsMarker "t") "t" = false := by
  decide

/-- C3 (amended): for every base path the properly-closed marker file is
located inside the `datastore/` subdirectory (its path is the datastore
directory path plus `/properly_closed`), so removing `datastore/` — as
`remove()` does — deletes the marker as well: afterwards
`priv_properly_closed` is false on any file system. -/
theorem marker_inside_datastore (base : String) (fs : FS) :
    priv_make_file_name base k_properly_closed_mark_file_name
      = priv_make_datastore_dir_path base ++ "/" ++ k_properly_closed_mark_file_name
    ∧ priv_properly_closed (priv_remove_data_store fs base) base = false := by
  constructor
  · rfl
  · unfold priv_properly_closed priv_remove_data_store priv_make_file_name
    exact removeTree_not_exist fs _ _ (pathUnder_append _ _)

/-- C5: for a named or unique construct whose raw name already has a
directory entry, the find-or-create variant (`try2find = true`) returns
the stored entry's address (segment base plus stored offset) without
running the initializer and without touching any state — even when the
requested count differs from the stored length — while the plain variant
(`try2find = false`) returns null (`name_in_use`) and changes nothing. -/
theorem construct_existing_entry (k : ManagerKernel) (name : String)
    (num szT : Nat) (failAt : Option Nat) (off : Int) (len : Nat)
    (h : dirFind k.named_object_directory name = some (off, len)) :
    priv_generic_named_construct k name num szT true failAt
      = (ConstructResult.addr (k.segment_storage.base + off), k, [])
    ∧ priv_generic_named_construct k name num szT false failAt
      = (ConstructResult.nullRet, k, []) := by
  unfold priv_generic_named_construct
  rw [h]
  exact ⟨rfl, rfl⟩

/-- C5 witness: `kWithEntry` stores `"x"` with length 3; a construct call
asking for 7 elements finds it and returns its address unchanged, and the
non-find variant returns null. -/
theorem construct_existing_entry_witness :
    priv_generic_named_construct kWithEntry "x" 7 8 true none
      = (ConstructResult.addr (kWithEntry.segment_storage.base + 64), kWithEntry, [])
    ∧ priv_generic_named_construct kWithEntry "x" 7 8 false none
      = (ConstructResult.nullRet, kWithEntry, []) :=
  construct_existing_entry kWithEntry "x" 7 8 none 64 3 (by decide)

/-- C6: on every file system and path, `consistent(path)` returns exactly
the existence of the properly-closed marker file (true when it exists,
false when it does not); and `open` on a path whose backing segment file
exists but whose marker is absent fails with `inconsistent_datastore`
(the source aborts) instead of attaching the store. -/
theorem consistent_iff_marker_and_open_fails (fs : FS) (p : String) (ro : Bool)
    (vmr : Nat) (env : OpenEnv) :
    consistent fs p
      = fs.exist (priv_make_file_name p k_properly_closed_mark_file_name)
    ∧ (segment_openable fs p = true → priv_properly_closed fs p = false →
        openKernel p ro vmr fs env = OpenResult.inconsistentDatastore) := by
  constructor
  · rfl
  · intro hseg hmark
    unfold openKernel
    rw [hseg, hmark]
    rfl

/-- C6 witness: on `fsMarker` (marker present) `consistent` returns true,
on `fsSegOnly` (segment file present, marker absent) it returns false and
`open` fails with `inconsistent_datastore`. -/
theorem consistent_iff_marker_and_open_fails_witness :
    (consistent fsMarker "t"
      = fsMarker.exist (priv_make_file_name "t" k_properly_closed_mark_file_name)
      ∧ consistent fsMarker "t" = true)
    ∧ (consistent fsSegOnly "t"
      = fsSegOnly.exist (priv_make_file_name "t" k_properly_closed_mark_file_name)
      ∧ consistent fsSegOnly "t" = false)
    ∧ openKernel "t" false 4194304 fsSegOnly envW = OpenResult.inconsistentDatastore :=
  ⟨⟨(consistent_iff_marker_and_open_fails fsMarker "t" false 4194304 envW).1,
    by decide⟩,
   ⟨(consistent_iff_marker_and_open_fails fsSegOnly "t" false 4194304 envW).1,
    by decide⟩,
   (consistent_iff_marker_and_open_fails fsSegOnly "t" false 4194304 envW).2
     (by decide) (by decide)⟩

/-- C1 counterexample: on a fresh kernel, a named construct of 2 elements
whose initializer fails at slot 1 surfaces the failure, yet afterwards the
named-object directory still holds the just-inserted entry and the
allocator still records the allocation — they are not in the same state
as before the call, contradicting the claimed rollback. -/
theorem construct_no_rollback_cex :
    (priv_generic_named_construct kFresh "x" 2 8 false (some 1)).1
      = ConstructResult.initRaised
    ∧ ((priv_generic_named_construct kFresh "x" 2 8 false (some 1)).2.1.named_object_directory
          = kFresh.named_object_directory → False)
    ∧ ((priv_generic_named_construct kFresh "x" 2 8 false (some 1)).2.1.segment_memory_allocator
          = kFresh.segment_memory_allocator → False) := by
  decide

/-- C1 (amended): when the initializer of a named or unique construct
fails at slot `j`, the already-constructed slots `[0, j)` are destructed
in reverse order (by the unwinding inside the array-construct helper) and
the failure is surfaced, but the kernel erases nothing and deallocates
nothing: the just-inserted directory entry remains in the directory and
the memory obtained for the object remains allocated. -/
theorem construct_init_failure (k : ManagerKernel) (name : String)
    (num szT j : Nat) (t2f : Bool)
    (hfind : dirFind k.named_object_directory name = none)
    (hj : j < num) :
    priv_generic_named_construct k name num szT t2f (some j)
      = (ConstructResult.initRaised,
         { (k.allocate (num * szT)).2 with
           named_object_directory :=
             (name, (k.allocate (num * szT)).1 - k.segment_storage.base, num)
               :: k.named_object_directory },
         (List.range j).map Event.constructElem
           ++ (List.range j).reverse.map Event.destructElem)
    ∧ dirFind
        (priv_generic_named_construct k name num szT t2f (some j)).2.1.named_object_directory
        name
      = some ((k.allocate (num * szT)).1 - k.segment_storage.base, num) := by
  have harr : array_construct num (some j)
      = (false,
         (List.range j).map Event.constructElem
           ++ (List.range j).reverse.map Event.destructElem) := by
    simp only [array_construct]
    rw [if_pos hj]
  have h1 : priv_generic_named_construct k name num szT t2f (some j)
      = (ConstructResult.initRaised,
         { (k.allocate (num * szT)).2 with
           named_object_directory :=
             (name, (k.allocate (num * szT)).1 - k.segment_storage.base, num)
               :: k.named_object_directory },
         (List.range j).map Event.constructElem
           ++ (List.range j).reverse.map Event.destructElem) := by
    simp only [priv_generic_named_construct, hfind, allocate_dir, allocate_storage,
      dirInsert, harr]
    rfl
  refine ⟨h1, ?_⟩
  rw [h1]
  simp [dirFind]

/-- C1 witness: the amended statement at the fresh kernel, name `"y"`,
2 elements of 8 bytes, failure at slot 1. -/
theorem construct_init_failure_witness :
    priv_generic_named_construct kFresh "y" 2 8 false (some 1)
      = (ConstructResult.initRaised,
         { (kFresh.allocate (2 * 8)).2 with
           named_object_directory :=
             ("y", (kFresh.allocate (2 * 8)).1 - kFresh.segment_storage.base, 2)
               :: kFresh.named_object_directory },
         (List.range 1).map Event.constructElem
           ++ (List.range 1).reverse.map Event.destructElem)
    ∧ dirFind
        (priv_generic_named_construct kFresh "y" 2 8 false (some 1)).2.1.named_object_directory
        "y"
      = some ((kFresh.allocate (2 * 8)).1 - kFresh.segment_storage.base, 2) :=
  construct_init_failure kFresh "y" 2 8 1 false (by decide) (by decide)

/-- C8: on a writable kernel, destroy by name or by type token returns
false and changes nothing when the raw name has no directory entry;
otherwise it removes the directory entry first, then runs the destructor
of each of the entry's `len` elements, then deallocates the memory at the
stored offset, and returns true. -/
theorem destroy_spec (k : ManagerKernel) (h : NameHolder) (name : String)
    (hro : k.segment_storage.read_only = false)
    (hn : rawName h = some name) :
    (dirFind k.named_object_directory name = none → k.destroy h = (false, k, []))
    ∧ ∀ off len, dirFind k.named_object_directory name = some (off, len) →
        k.destroy h
          = (true,
             ManagerKernel.deallocate
               { k with named_object_directory := dirErase k.named_object_directory name }
               (k.segment_storage.base + off),
             Event.eraseEntry name ::
               ((List.range len).map Event.destructElem
                 ++ [Event.deallocMem (k.segment_storage.base + off)])) := by
  constructor
  · intro hf
    simp only [ManagerKernel.destroy, hro, hn, hf]
    rfl
  · intro off len hf
    simp only [ManagerKernel.destroy, hro, hn, hf]
    rfl

/-- C8 witness: `kWithEntry` at a missing name `"z"` and the stored name
`"x"` (offset 64, length 3). -/
theorem destroy_spec_witness :
    kWithEntry.destroy (NameHolder.named "z") = (false, kWithEntry, [])
    ∧ kWithEntry.destroy (NameHolder.named "x")
      = (true,
         ManagerKernel.deallocate
           { kWithEntry with
             named_object_directory := dirErase kWithEntry.named_object_directory "x" }
           (kWithEntry.segment_storage.base + 64),
         Event.eraseEntry "x" ::
           ((List.range 3).map Event.destructElem
             ++ [Event.deallocMem (kWithEntry.segment_storage.base + 64)])) :=
  ⟨(destroy_spec kWithEntry (NameHolder.named "z") "z" (by decide) rfl).1 (by decide),
   (destroy_spec kWithEntry (NameHolder.named "x") "x" (by decide) rfl).2 64 3 (by decide)⟩

/-- C4 (code bug): on a kernel whose segment is at capacity the segment
memory allocator fails with the null offset, but `allocate` adds the null
offset to the segment base without checking it (the source only has
`assert(offset >= 0)`, unlike `allocate_aligned`) and returns the non-null
address `segment base - 1` instead of null; no allocation is recorded. -/
theorem allocate_oom_returns_nonnull :
    (kFull.segment_memory_allocator.allocate 2097152).1 = k_null_offset
    ∧ kFull.allocate 2097152 = (4194303, kFull)
    ∧ ((4194303 : Int) = 0 → False) := by decide

/-- `pow2geAux` keeps a power-of-two accumulator a power of two. -/
theorem pow2geAux_pow (n : Nat) :
    ∀ fuel acc, (∃ c, acc = 2 ^ c) → ∃ c, pow2geAux n acc fuel = 2 ^ c := by
  intro fuel
  induction fuel with
  | zero => intro acc h; exact h
  | succ f ih =>
    intro acc h
    unfold pow2geAux
    split
    · exact h
    · refine ih (2 * acc) ?_
      obtain ⟨c, rfl⟩ := h
      exact ⟨c + 1, by rw [pow_succ]; ring⟩

/-- `pow2ge` returns a power of two. -/
theorem pow2ge_pow (n : Nat) : ∃ c, pow2ge n = 2 ^ c :=
  pow2geAux_pow n n 1 ⟨0, rfl⟩

/-- `pow2geAux` with enough fuel reaches at least `n`. -/
theorem le_pow2geAux (n : Nat) :
    ∀ fuel acc, n ≤ 2 ^ fuel * acc → n ≤ pow2geAux n acc fuel := by
  intro fuel
  induction fuel with
  | zero =>
    intro acc h
    have hacc : n ≤ acc := by simpa using h
    exact hacc
  | succ f ih =>
    intro acc h
    unfold pow2geAux
    split
    · assumption
    · refine ih (2 * acc) ?_
      calc n ≤ 2 ^ (f + 1) * acc := h
        _ = 2 ^ f * (2 * acc) := by ring

/-- `pow2ge n` is at least `n`. -/
theorem le_pow2ge (n : Nat) : n ≤ pow2ge n :=
  le_pow2geAux n n 1 (by have := Nat.lt_two_pow n; omega)

/-- Starting from a power of two `≤ 2 ^ k`, `pow2geAux` at `2 ^ k` stops
exactly at `2 ^ k`. -/
theorem pow2geAux_two_pow (k : Nat) :
    ∀ fuel j, j ≤ k → k - j ≤ fuel → pow2geAux (2 ^ k) (2 ^ j) fuel = 2 ^ k := by
  intro fuel
  induction fuel with
  | zero =>
    intro j hj hf
    have hjk : j = k := by omega
    subst hjk
    rfl
  | succ f ih =>
    intro j hj hf
    unfold pow2geAux
    split
    · rename_i hle
      have hkj : k ≤ j := (Nat.pow_le_pow_iff_right (by norm_num)).mp hle
      have hjk : j = k := le_antisymm hj hkj
      rw [hjk]
    · rename_i hlt
      have hjk : j < k := by
        by_contra hcon
        push_neg at hcon
        exact hlt (Nat.pow_le_pow_right (by norm_num) hcon)
      have h2 : (2 : Nat) * 2 ^ j = 2 ^ (j + 1) := by rw [pow_succ]; ring
      rw [h2]
      exact ih (j + 1) (by omega) (by omega)

/-- `pow2ge` fixes powers of two. -/
theorem pow2ge_two_pow (k : Nat) : pow2ge (2 ^ k) = 2 ^ k := by
  unfold pow2ge
  have h1 : (1 : Nat) = 2 ^ 0 := rfl
  rw [h1]
  exact pow2geAux_two_pow k (2 ^ k) 0 (Nat.zero_le k)
    (by have := Nat.lt_two_pow k; omega)

/-- `isPow2` decides exactly the powers of two. -/
theorem isPow2_iff (n : Nat) : isPow2 n = true ↔ ∃ c, n = 2 ^ c := by
  unfold isPow2
  constructor
  · intro h
    have he : pow2ge n = n := eq_of_beq h
    obtain ⟨c, hc⟩ := pow2ge_pow n
    exact ⟨c, by rw [← he, hc]⟩
  · rintro ⟨c, rfl⟩
    rw [pow2ge_two_pow]
    exact beq_self_eq_true _

/-- Divisibility between powers of two follows from their order. -/
theorem two_pow_dvd_of_le {i c : Nat} (h : 2 ^ i ≤ 2 ^ c) : (2 ^ i : Nat) ∣ 2 ^ c :=
  pow_dvd_pow 2 ((Nat.pow_le_pow_iff_right (by norm_num)).mp h)

/-- Every offset the first-fit scan returns is a multiple of `gran`. -/
theorem findFitAux_dvd (gran reserve cap : Nat) (al : List (Nat × Nat)) :
    ∀ fuel j o, findFitAux gran reserve cap al j fuel = some o → gran ∣ o := by
  intro fuel
  induction fuel with
  | zero =>
    intro j o h
    unfold findFitAux at h
    exact Option.noConfusion h
  | succ f ih =>
    intro j o h
    unfold findFitAux at h
    split at h
    · cases h
      exact dvd_mul_left gran j
    · exact ih (j + 1) o h

/-- Every offset `findFit` returns is a multiple of `gran`. -/
theorem findFit_dvd (gran reserve cap : Nat) (al : List (Nat × Nat)) (o : Nat)
    (h : findFit gran reserve cap al = some o) : gran ∣ o :=
  findFitAux_dvd gran reserve cap al _ 0 o h

/-- `allocGran` either fails with the state unchanged or returns an offset
that is a multiple of its granularity. -/
theorem allocGran_result (al : SegAlloc) (gran reserve : Nat) :
    al.allocGran gran reserve = (k_null_offset, al)
    ∨ ∃ o : Nat, (al.allocGran gran reserve).1 = (o : Int) ∧ gran ∣ o := by
  unfold SegAlloc.allocGran
  rcases hf : findFit gran reserve al.capacity al.allocated with _ | o
  · left
    simp only [hf]
  · right
    exact ⟨o, by simp only [hf], findFit_dvd _ _ _ _ o hf⟩

/-- `allocCore` either fails with the state unchanged or returns an offset
that is a multiple of the granularity it chose: the slot size
`pow2ge (max (max nbytes 1) align)` for small requests, the chunk size for
large ones. -/
theorem allocCore_result (al : SegAlloc) (nbytes align : Nat) :
    al.allocCore nbytes align = (k_null_offset, al)
    ∨ ∃ o g : Nat, (al.allocCore nbytes align).1 = (o : Int) ∧ g ∣ o
        ∧ (g = pow2ge (max (max nbytes 1) align) ∨ g = k_chunk_size) := by
  unfold SegAlloc.allocCore
  dsimp only
  split
  · rcases allocGran_result al (pow2ge (max (max nbytes 1) align))
        (pow2ge (max (max nbytes 1) align)) with h | ⟨o, h1, h2⟩
    · left; exact h
    · right; exact ⟨o, _, h1, h2, Or.inl rfl⟩
  · rcases allocGran_result al k_chunk_size (roundUpChunk (max nbytes 1)) with h | ⟨o, h1, h2⟩
    · left; exact h
    · right; exact ⟨o, _, h1, h2, Or.inr rfl⟩

/-- A power-of-two alignment at most the chunk size divides both possible
granularities of `allocCore`. -/
theorem align_dvd_gran (nbytes align i g : Nat) (hal : align = 2 ^ i)
    (hle : align ≤ k_chunk_size)
    (hg : g = pow2ge (max (max nbytes 1) align) ∨ g = k_chunk_size) :
    align ∣ g := by
  rcases hg with hg | hg
  · obtain ⟨c, hc⟩ := pow2ge_pow (max (max nbytes 1) align)
    rw [hg, hc]
    subst hal
    refine two_pow_dvd_of_le ?_
    rw [← hc]
    exact le_trans (le_max_right _ _) (le_pow2ge _)
  · rw [hg]
    subst hal
    have hck : k_chunk_size = 2 ^ 21 := by norm_num [k_chunk_size]
    rw [hck]
    refine two_pow_dvd_of_le ?_
    rw [← hck]
    exact hle

/-- C9: a successful `allocate_aligned(nbytes, a)` with `a` a power of two
at most the chunk size returns an address whose offset from the segment
base is divisible by `a`; and whenever `a` is not a power of two or
exceeds the chunk size, `allocate_aligned` fails with `invalid_argument`
(returns null, changing nothing). -/
theorem allocate_aligned_alignment (k : ManagerKernel) (nbytes align : Nat) :
    (∀ i a k2, align = 2 ^ i → k.allocate_aligned nbytes align = (a, k2) → a ≠ 0 →
        (align : Int) ∣ (a - k.segment_storage.base))
    ∧ (((¬ ∃ i, align = 2 ^ i) ∨ k_chunk_size < align) →
        k.allocate_aligned nbytes align = (0, k)) := by
  constructor
  · intro i a k2 hal heq ha
    unfold ManagerKernel.allocate_aligned at heq
    by_cases hro : k.segment_storage.read_only = true
    · rw [if_pos hro] at heq
      cases heq
      exact absurd rfl ha
    · rw [if_neg hro] at heq
      by_cases hc : k_chunk_size < align
      · rw [if_pos hc] at heq
        cases heq
        exact absurd rfl ha
      · rw [if_neg hc] at heq
        by_cases hp : (isPow2 align && decide (align ≤ k_chunk_size)) = true
        · have hr : k.segment_memory_allocator.allocate_aligned nbytes align
              = k.segment_memory_allocator.allocCore nbytes align := by
            unfold SegAlloc.allocate_aligned
            rw [if_pos hp]
          rw [hr] at heq
          rcases allocCore_result k.segment_memory_allocator nbytes align with
            hres | ⟨o, g, ho, hgo, hgd⟩
          · rw [hres] at heq
            dsimp only at heq
            rw [if_pos rfl] at heq
            cases heq
            exact absurd rfl ha
          · dsimp only at heq
            rw [ho] at heq
            have hne : ¬ ((o : Int) = k_null_offset) := by
              unfold k_null_offset
              omega
            rw [if_neg hne] at heq
            cases heq
            have hsub : k.segment_storage.base + (o : Int) - k.segment_storage.base
                = (o : Int) := by ring
            rw [hsub]
            refine Int.natCast_dvd_natCast.mpr ?_
            exact dvd_trans (align_dvd_gran nbytes align i g hal (by omega) hgd) hgo
        · have hr : k.segment_memory_allocator.allocate_aligned nbytes align
              = (k_null_offset, k.segment_memory_allocator) := by
            unfold SegAlloc.allocate_aligned
            rw [if_neg hp]
          rw [hr] at heq
          dsimp only at heq
          rw [if_pos rfl] at heq
          cases heq
          exact absurd rfl ha
  · intro hbad
    unfold ManagerKernel.allocate_aligned
    by_cases hro : k.segment_storage.read_only = true
    · rw [if_pos hro]
    · rw [if_neg hro]
      by_cases hc : k_chunk_size < align
      · rw [if_pos hc]
      · rw [if_neg hc]
        have hnp : ¬ ∃ i, align = 2 ^ i := by
          rcases hbad with h | h
          · exact h
          · exact absurd h hc
        have hp2 : isPow2 align = false := by
          cases hb : isPow2 align
          · rfl
          · exact absurd ((isPow2_iff align).mp hb) hnp
        have hr : k.segment_memory_allocator.allocate_aligned nbytes align
            = (k_null_offset, k.segment_memory_allocator) := by
          unfold SegAlloc.allocate_aligned
          rw [hp2]
          rfl
        rw [hr]
        dsimp only
        rw [if_pos rfl]

/-- C9 witness: alignment 16 at 100 bytes succeeds on the fresh kernel
with a divisible offset; alignment 24 (not a power of two) fails with a
null return and no state change. -/
theorem allocate_aligned_alignment_witness :
    ((16 : Nat) : Int) ∣ ((4194304 : Int) - kFresh.segment_storage.base)
    ∧ kFresh.allocate_aligned 100 24 = (0, kFresh) :=
  ⟨(allocate_aligned_alignment kFresh 100 16).1 4 4194304 kC9res rfl (by decide)
      (by decide),
   (allocate_aligned_alignment kFresh 100 24).2
     (Or.inl (fun hex => absurd ((isPow2_iff 24).mpr hex) (by decide)))⟩

end Metall
